import Mathlib

/-!
Shallow embedding of the session/authentication subsystem, the posts cache
proxy, and the user registration service of the backend-assessment
repository, together with proofs checking the natural-language specification
against the code.

Sources embedded:
  app/core/security/session.py  (get_token, get_user, login)
  app/service/user_service.py   (get_by_id, get_by_email, create_user, helpers)
  app/service/post_service.py   (PostsService: cache read, filter, paginate, get_posts)
  app/repos/user_repo.py        (User Directory interface; external per spec section 6)
  app/models/db.py, app/models/dto.py (data model)

Modules referenced by the code but not present among the sources
(app/core/config.py, app/core/security/jwt.py, app/core/security/bcrypt_hashing.py,
app/utils/formatting.py, app/models/enums.py, app/exceptions/scheme.py) are
modelled from the spec as abstract environment parameters or small
definitions, each marked in its doc comment.
-/

namespace App

/-- Modelled from the spec: `app/exceptions/scheme.py` is not among the
provided sources. Every call site constructs `AppException(message, status_code)`
with a user-facing message and an HTTP status code (spec section 7). -/
structure AppException where
  message : String
  status_code : Nat
deriving Repr, DecidableEq

/-- Modelled from the spec: `app/models/enums.py` is not among the provided
sources; spec section 3 gives the role enumeration as USER, ADMIN. -/
inductive UserRole where
  | USER
  | ADMIN
deriving Repr, DecidableEq

/-- Modelled from the spec: string value of the role enum, as pydantic
coerces `dto.Token.role : str` from the enum member. The exact strings are
not load-bearing; only injectivity is used. -/
def roleStr : UserRole → String
  | .USER => "user"
  | .ADMIN => "admin"

/-- User record, from `app/models/db.py` class UserDB (UUIDs are modelled as
naturals, timestamps as integers; `updated_at` is server-maintained and
never read by the embedded code, so it is omitted). -/
structure UserDB where
  id : Nat
  username : String
  email : String
  hash_password : String
  role : UserRole
  is_active : Bool
  created_at : Int
deriving Repr, DecidableEq

/-- Session token claims, from `app/models/dto.py` class Token
(user_id : UUID, role : str). -/
structure Token where
  user_id : Nat
  role : String
deriving Repr, DecidableEq

/-- A decoded JSON value bound to the user_id key of a token payload:
either still a string or already a parsed UUID, mirroring the
`isinstance(token_dict.get('user_id'), str)` dance in session.py lines 39-45. -/
inductive PyVal where
  | str (s : String)
  | uuid (u : Nat)
deriving Repr, DecidableEq

/-- Decoded token payload dictionary, as produced by `jwt.decode`
(session.py line 32): the fields the code reads. `exp` is the numeric
expiry timestamp; a missing key is `none` and the Python-falsy value 0 is
`some 0`. -/
structure Payload where
  user_id : Option PyVal
  role : Option String
  exp : Option Int
deriving Repr, DecidableEq

/-- Python str.strip on a character list: remove leading and trailing
whitespace. -/
def trimList (cs : List Char) : List Char :=
  ((cs.dropWhile Char.isWhitespace).reverse.dropWhile Char.isWhitespace).reverse

/-- Modelled from the spec: `app/utils/formatting.py` is not among the
provided sources; spec section 4.3 step 2 describes `format_string` as
email normalization (trim, lowercase), i.e. Python strip().lower(). -/
def format_string (s : String) : String :=
  String.mk ((trimList s.data).map Char.toLower)

/-- Python str.lower (ASCII case folding, which is all the embedded data
uses). -/
def pyLower (s : String) : String := String.mk (s.data.map Char.toLower)

/-- Character class `[a-zA-Z0-9._%+-]` of the local part of the email
regex in `user_service._is_valid_email` (user_service.py line 118). -/
def isEmailLocalChar (c : Char) : Bool :=
  c.isAlpha || c.isDigit || c = '.' || c = '_' || c = '%' || c = '+' || c = '-'

/-- Character class `[a-zA-Z0-9.-]` of the domain part of the email regex
in `user_service._is_valid_email`. -/
def isEmailDomainChar (c : Char) : Bool :=
  c.isAlpha || c.isDigit || c = '.' || c = '-'

/-- Match of the domain tail `[a-zA-Z0-9.-]+\.[a-zA-Z]\x7b2,\x7d$` of the
email regex: some dot splits the tail into a nonempty run of domain
characters and a final all-alphabetic run of length at least two. -/
def emailDomainMatch (cs : List Char) : Bool :=
  (List.range cs.length).any fun i =>
    decide (0 < i) && (cs.getD i ' ' = '.') && (cs.take i).all isEmailDomainChar
      && decide (2 ≤ cs.length - (i + 1)) && (cs.drop (i + 1)).all Char.isAlpha

/-- `user_service._is_valid_email` (user_service.py lines 116-119): the
anchored regex `^[a-zA-Z0-9._%+-]+@[a-zA-Z0-9.-]+\.[a-zA-Z]\x7b2,\x7d$`.
Since the local character class excludes the at sign, a successful match
splits the string at an at sign into a nonempty local part and a matching
domain tail. -/
def is_valid_email (s : String) : Bool :=
  let cs := s.data
  (List.range cs.length).any fun i =>
    (cs.getD i ' ' = '@') && decide (0 < i) && (cs.take i).all isEmailLocalChar
      && emailDomainMatch (cs.drop (i + 1))

/-- Special characters `[!@#$%^&*(),.?":\x7b\x7d|<>]` accepted by
`user_service._is_valid_password`. -/
def isSpecialChar (c : Char) : Bool :=
  ("!@#$%^&*(),.?\x22:\x7b\x7d|<>".data).contains c

/-- `user_service._is_valid_password` (user_service.py lines 121-132):
length at least 8 and at least one uppercase, lowercase, digit and special
character. -/
def is_valid_password (p : String) : Bool :=
  decide (8 ≤ p.length) && p.data.any Char.isUpper && p.data.any Char.isLower
    && p.data.any Char.isDigit && p.data.any isSpecialChar

/-- `user_repo.get_by_id` is the User Directory lookup (spec section 6:
returns absence, not an error, for not-found). The directory is an
external collaborator, modelled as a function from id to optional user. -/
def Directory := Nat → Option UserDB

/-- `user_service.get_by_id` (user_service.py lines 39-44): wraps the
repository lookup and raises AppException(404, User not found) when the
repository returns None. -/
def user_service_get_by_id (dir : Directory) (id : Nat) : Except AppException UserDB :=
  match dir id with
  | none => .error ⟨"User not found", 404⟩
  | some u => .ok u

/-- `user_service.get_by_email` (user_service.py lines 47-55): empty email
gives None; otherwise format, reject invalid format, then look up by the
formatted email in the repository (`user_repo.get_by_email`, external). -/
def user_service_get_by_email (repoByEmail : String → Option UserDB)
    (email : String) : Option UserDB :=
  if email = "" then none
  else
    let e := format_string email
    if ! is_valid_email e then none
    else repoByEmail e

/-- Environment of the token-handling code: `jwt.decode` and the UUID
parser are modelled abstractly (app/core/security/jwt.py is not among the
provided sources; spec section 4.2 gives the codec contract: decode
returns failure, not a crash, on bad signature, malformed payload or
unparseable user id), plus the current time as an integer timestamp. -/
structure TokenEnv where
  decode : String → Option Payload
  parseUUID : String → Option Nat
  now : Int

/-- The user_id conversion step of `get_token` (session.py lines 38-45):
if the payload user_id is a string, parse it as a UUID, failing with
AppException(401, Invalid session) after clearing the cookie on a parse
error; a non-string value is left untouched. -/
def uuidStep (env : TokenEnv) (d : Payload) : Except AppException Payload :=
  match d.user_id with
  | some (.str s) =>
    match env.parseUUID s with
    | none => .error ⟨"Invalid session", 401⟩
    | some u => .ok { d with user_id := some (.uuid u) }
  | _ => .ok d

/-- The final `dto.Token(**token_dict)` construction of `get_token`
(session.py line 54): pydantic validation succeeds exactly when user_id is
a parsed UUID and role is a string; any validation error is caught by the
generic handler (session.py lines 58-61), which clears the cookie and
raises AppException(401, Invalid session). The Bool is whether the
response cookie was cleared. -/
def tokenFinish (d : Payload) : Except AppException Token × Bool :=
  match d.user_id, d.role with
  | some (.uuid u), some r => (.ok ⟨u, r⟩, false)
  | _, _ => (.error ⟨"Invalid session", 401⟩, true)

/-- `session.get_token` (session.py lines 24-61), Auth Gate Tier 1. The
argument is the value of the session cookie (None when absent; an empty
string is falsy in Python and hits the same branch). Returns the result
together with whether `res.delete_cookie` was called. The expiry check
(lines 48-52) fires only when the exp value is truthy (present and
nonzero) and earlier than the current time. -/
def get_token (env : TokenEnv) (cookie : Option String) :
    Except AppException Token × Bool :=
  match cookie with
  | none => (.error ⟨"No session token", 401⟩, false)
  | some s =>
    if s = "" then (.error ⟨"No session token", 401⟩, false)
    else
      match env.decode s with
      | none => (.error ⟨"Invalid session token", 401⟩, true)
      | some d =>
        match uuidStep env d with
        | .error e => (.error e, true)
        | .ok d2 =>
          match d2.exp with
          | some e =>
            if e ≠ 0 ∧ e < env.now then (.error ⟨"Session expired", 401⟩, true)
            else tokenFinish d2
          | none => tokenFinish d2

/-- `session.get_user` (session.py lines 63-86), Auth Gate Tier 2: run
Tier 1, then `user_service.get_by_id`. Because `user_service.get_by_id`
raises AppException(404) instead of returning None, the
`if not user` branch at session.py lines 70-73 (log, clear cookie, 401)
is unreachable: the 404 propagates unchanged through the
`except AppException: raise` handler at lines 82-83 and the cookie is not
cleared. An existing but inactive user yields AppException(401, Account
deactivated) with the cookie cleared (lines 75-78). -/
def get_user (env : TokenEnv) (dir : Directory) (cookie : Option String) :
    Except AppException UserDB × Bool :=
  match get_token env cookie with
  | (.error e, c) => (.error e, c)
  | (.ok tok, c) =>
    match user_service_get_by_id dir tok.user_id with
    | .error e => (.error e, c)
    | .ok u =>
      if ! u.is_active then (.error ⟨"Account deactivated", 401⟩, true)
      else (.ok u, c)

/-- `session._simulate_password_check` (session.py lines 173-177): its
body awaits asyncio.sleep, but no import statement in session.py (lines
1-18) binds the name asyncio, so evaluating the coroutine raises a
NameError. Modelled as an erroring computation; the error value is the
Python exception text. -/
def simulate_password_check : Except String Unit :=
  .error "NameError: name asyncio is not defined"

/-- Attributes of the session cookie set by `login` (session.py lines
149-156). The cookie name is the configured constant COOKIES_KEY_NAME;
only this one cookie is ever touched, so the name is left implicit. -/
structure CookieSet where
  value : String
  expires : Int
  httponly : Bool
  secure : Bool
  samesite : String
deriving Repr, DecidableEq

/-- Environment of `login`: the repository email lookup (external User
Directory), `bcrypt_hashing.validate` and `jwt.encode` (both modules not
among the provided sources; spec sections 4.1 and 4.2 give their
contracts), the current time, and the configured session duration
CONFIG.SESSION_TIME (configuration is external per spec section 6). -/
structure LoginEnv where
  repoByEmail : String → Option UserDB
  validate : String → String → Bool
  encode : Token → Int → String
  now : Int
  sessionTime : Int

/-- `session.login` (session.py lines 95-167). Returns the result and the
cookie set on the response (None when no cookie was set). Control flow:
input validation; email formatting; lookup via `user_service.get_by_email`;
on absence, `await _simulate_password_check()` raises NameError (asyncio
is unbound), so the generic handler at lines 165-167 converts it to
AppException(500, Login failed. Please try again.) and the
AppException(401, Invalid credentials) at line 115 is unreachable; then
the inactive check (403), the locked check (db.UserDB defines no
is_locked column, so `getattr(user_db, ..., False)` is always False and
the branch never fires), the password check (401 Invalid credentials on
mismatch), and on success token encoding and the secure cookie. -/
def login (env : LoginEnv) (email password : String) :
    Except AppException String × Option CookieSet :=
  if email = "" || password = "" then
    (.error ⟨"Email and password are required", 400⟩, none)
  else
    let email_formatted := format_string email
    if email_formatted = "" then (.error ⟨"Invalid email format", 400⟩, none)
    else
      match user_service_get_by_email env.repoByEmail email_formatted with
      | none =>
        match simulate_password_check with
        | .error _ => (.error ⟨"Login failed. Please try again.", 500⟩, none)
        | .ok _ => (.error ⟨"Invalid credentials", 401⟩, none)
      | some user_db =>
        if ! user_db.is_active then
          (.error ⟨"Email not verified. Please check your inbox.", 403⟩, none)
        else if ! env.validate password user_db.hash_password then
          (.error ⟨"Invalid credentials", 401⟩, none)
        else
          let exp_date := env.now + env.sessionTime
          let token_str := env.encode ⟨user_db.id, roleStr user_db.role⟩ exp_date
          (.ok token_str, some ⟨token_str, exp_date, true, true, "strict"⟩)

/-- Post record, from `app/models/dto.py` class Post (id, title, body,
userId). The raw JSON dicts from the external source are modelled with
the same fields, which is what `Post(**post)` requires. -/
structure PostData where
  id : Int
  title : String
  body : String
  userId : Int
deriving Repr, DecidableEq

/-- Response shape of `get_posts`, from `app/models/dto.py` class
PostListResponse. -/
structure PostListResponse where
  posts : List PostData
  total : Nat
  page : Nat
  per_page : Nat
  has_next : Bool
  has_prev : Bool
deriving Repr, DecidableEq

/-- Python substring membership `needle in hay`: some position of the
haystack starts with the needle (an empty needle matches at position 0). -/
def substrIn (needle hay : String) : Bool :=
  (List.range (hay.data.length + 1)).any fun i =>
    ((hay.data.drop i).take needle.data.length) == needle.data

/-- `PostsService._filter_posts` (post_service.py lines 64-85):
a falsy (absent or empty) search term means no filtering; otherwise keep
the posts whose lowercased title or body contains the lowercased search
term. -/
def filter_posts (posts : List PostData) (search : Option String) : List PostData :=
  match search with
  | none => posts
  | some s =>
    if s = "" then posts
    else
      posts.filter fun p =>
        substrIn (pyLower s) (pyLower p.title) || substrIn (pyLower s) (pyLower p.body)

/-- `PostsService._paginate_posts` (post_service.py lines 87-111). An
empty list short-circuits to an empty page with both flags false. The
route layer (post_controller.py lines 17-18) constrains page to at least
1 and per_page to 1..100, so naturals model the Python ints faithfully on
every reachable input; `math.ceil(total / per_page)` is the exact rational
ceiling, written (total + perPage - 1) / perPage in natural division. The
Python slice posts[start : start + per_page] with nonnegative bounds is
drop-then-take. -/
def paginate_posts (posts : List PostData) (page perPage : Nat) :
    List PostData × Nat × Bool × Bool :=
  let total := posts.length
  if total = 0 then ([], 0, false, false)
  else
    let total_pages := (total + perPage - 1) / perPage
    let start := (page - 1) * perPage
    ((posts.drop start).take perPage, total,
      decide (page < total_pages), decide (1 < page))

/-- Outcome of the Redis read in `PostsService._get_cached_posts`: a hit
carrying the cached snapshot, a miss, or a backend failure
(redis.RedisError). -/
inductive CacheRead where
  | hit (posts : List PostData)
  | miss
  | down
deriving Repr, DecidableEq

/-- `PostsService._get_cached_posts` (post_service.py lines 33-47): return
the cached snapshot when present; on a miss return None; on a
redis.RedisError also return None so that the caller falls through to the
external source (the except branch at lines 45-47). -/
def get_cached_posts : CacheRead → Option (List PostData)
  | .hit d => some d
  | .miss => none
  | .down => none

/-- The pure tail of `PostsService.get_posts` (post_service.py lines
130-148) applied to a snapshot: filter, paginate, build the response. -/
def build_posts_response (data : List PostData) (page perPage : Nat)
    (search : Option String) : PostListResponse :=
  let filtered := filter_posts data search
  let (paginated, total, hn, hp) := paginate_posts filtered page perPage
  ⟨paginated, total, page, perPage, hn, hp⟩

/-- `PostsService.get_posts` (post_service.py lines 113-148): read the
cache; on a miss (or backend failure, folded into a miss by
`_get_cached_posts`) fetch from the external API, whose outcome is the
`api` argument (an exception from `_fetch_posts_from_api` propagates, as
`get_posts` has no handler); `_cache_posts` is best-effort and does not
affect the response, so it is not modelled. Then filter, paginate and
build the response. -/
def get_posts (cache : CacheRead) (api : Except String (List PostData))
    (page perPage : Nat) (search : Option String) :
    Except String PostListResponse :=
  match get_cached_posts cache with
  | some d => .ok (build_posts_response d page perPage search)
  | none =>
    match api with
    | .error e => .error e
    | .ok d => .ok (build_posts_response d page perPage search)

/-- Input DTO of registration, from `app/models/dto.py` class
UserCreateDTO (the pydantic field validators run at the HTTP boundary and
are not part of `create_user`). -/
structure UserCreateDTO where
  username : String
  email : String
  password : String
deriving Repr, DecidableEq

/-- Environment of user creation: the repository email lookup (external
User Directory), `bcrypt_hashing.hash` (module not among the provided
sources; spec section 4.1 gives the contract), the fresh UUID drawn by
uuid.uuid4(), and the current time. -/
structure CreateEnv where
  repoByEmail : String → Option UserDB
  hash : String → String
  freshId : Nat
  now : Int

/-- `user_service._create` (user_service.py lines 94-109): build the
UserDB record with a fresh id, formatted username and email, the given
role, is_active set to True, the hashed password and the creation time,
and hand it to `user_repo.add`. -/
def user_service_create (env : CreateEnv) (obj : UserCreateDTO)
    (role : UserRole) : UserDB :=
  { id := env.freshId
    username := format_string obj.username
    role := role
    email := format_string obj.email
    is_active := true
    hash_password := env.hash obj.password
    created_at := env.now }

/-- `user_service.create_user` (user_service.py lines 58-86): validate the
email format, the username length and the password strength, reject a
duplicate email, then create via `_create(obj, enums.UserRole.USER)`.
There is no email-verification step: `send_verification_email` is
imported (user_service.py line 19) but never called. -/
def create_user (env : CreateEnv) (obj : UserCreateDTO) :
    Except AppException UserDB :=
  let email_formatted := format_string obj.email
  if email_formatted = "" || ! is_valid_email email_formatted then
    .error ⟨"Email is not valid", 422⟩
  else
    let name_formatted := format_string obj.username
    if name_formatted = "" || name_formatted.length < 2 then
      .error ⟨"Name must be at least 2 characters", 422⟩
    else if ! is_valid_password obj.password then
      .error ⟨"Password must be at least 8 characters with uppercase, lowercase, number, and special character", 422⟩
    else
      match env.repoByEmail email_formatted with
      | some _ => .error ⟨"Email already exists", 422⟩
      | none => .ok (user_service_create env obj .USER)

/-! Concrete fixtures used to evaluate the embedded code on explicit
inputs. -/

/-- Sample active user for the login claims. -/
def C1user : UserDB := ⟨1, "alice", "alice@example.com", "hash1", .USER, true, 0⟩

/-- Login environment for claim C1: one registered active user, a correct
password Secret123!, an abstract encoder. -/
def C1env : LoginEnv where
  repoByEmail := fun e => if e = "alice@example.com" then some C1user else none
  validate := fun p h => p = "Secret123!" && h = "hash1"
  encode := fun _ _ => "signed"
  now := 1000
  sessionTime := 3600

/-- Token environment for claim C2: one decodable token t2 whose payload
references user id 11 with a far-future expiry. -/
def C2env : TokenEnv where
  decode := fun s => if s = "t2" then some ⟨some (.str "11"), some "user", some 5000⟩ else none
  parseUUID := fun s => if s = "11" then some 11 else none
  now := 1000

/-- Token environment for claim C3: token old decodes to an expired
payload; everything else fails to decode. -/
def C3env : TokenEnv where
  decode := fun s => if s = "old" then some ⟨some (.uuid 7), some "user", some 10⟩ else none
  parseUUID := fun _ => none
  now := 1000

/-- Inactive user fixture for claim C4. -/
def C4userInactive : UserDB := ⟨4, "bob", "bob@example.com", "h4", .USER, false, 0⟩

/-- Active user fixture for claim C4. -/
def C4userActive : UserDB := ⟨5, "eve", "eve@example.com", "h5", .USER, true, 0⟩

/-- Token environment for claim C4: tokens t4 and t5 reference users 4
(deactivated) and 5 (active), both with unexpired payloads. -/
def C4env : TokenEnv where
  decode := fun s =>
    if s = "t4" then some ⟨some (.uuid 4), some "user", some 2000⟩
    else if s = "t5" then some ⟨some (.uuid 5), some "user", some 2000⟩
    else none
  parseUUID := fun _ => none
  now := 1000

/-- User Directory for claim C4. -/
def C4dir : Directory := fun i =>
  if i = 4 then some C4userInactive else if i = 5 then some C4userActive else none

/-- Active user fixture for claim C5. -/
def C5user : UserDB := ⟨1, "alice", "alice@example.com", "hash5", .USER, true, 0⟩

/-- Login environment for claim C5. -/
def C5env : LoginEnv where
  repoByEmail := fun e => if e = "alice@example.com" then some C5user else none
  validate := fun p h => p = "Secret123!" && h = "hash5"
  encode := fun _ _ => "signed-token"
  now := 1000
  sessionTime := 3600

/-- Twenty-five posts, for the pagination boundary of claim C6. -/
def C6posts : List PostData := (List.range 25).map fun i => ⟨i, "title", "body", 0⟩

/-- A single post whose title and body do not contain zzz, for claim C7. -/
def C7posts : List PostData := [⟨1, "alpha", "beta", 1⟩]

/-- Two posts, for the cache-failure witness of claim C8. -/
def C8posts : List PostData := [⟨1, "a", "b", 1⟩, ⟨2, "c", "d", 2⟩]

/-- Expired payload fixture for claim C9 (exp 10, current time 1000). -/
def C9payExpired : Payload := ⟨some (.uuid 3), some "admin", some 10⟩

/-- Payload without an exp claim, for claim C9. -/
def C9payNoExp : Payload := ⟨some (.uuid 3), some "admin", none⟩

/-- Token environment for claim C9. -/
def C9env : TokenEnv where
  decode := fun s =>
    if s = "exp1" then some C9payExpired
    else if s = "noexp" then some C9payNoExp
    else none
  parseUUID := fun _ => none
  now := 1000

/-- The user record produced by the registration witness of claim C10. -/
def C10user : UserDB := ⟨42, "alice", "alice@example.com", "hashedpw", .USER, true, 0⟩

/-- Creation environment for claim C10: empty directory, abstract hasher,
fresh id 42. -/
def C10cenv : CreateEnv where
  repoByEmail := fun _ => none
  hash := fun _ => "hashedpw"
  freshId := 42
  now := 0

/-- Registration input for claim C10. -/
def C10obj : UserCreateDTO := ⟨"Alice", "alice@example.com", "Secret123!"⟩

/-- Login environment for claim C10, whose directory holds the freshly
registered user. -/
def C10lenv : LoginEnv where
  repoByEmail := fun e => if e = "alice@example.com" then some C10user else none
  validate := fun _ _ => true
  encode := fun _ _ => "t"
  now := 0
  sessionTime := 1

/-! Theorems settling the claims. -/

/-- Claim C6: for every non-empty filtered post list, `get_posts`
paginates as total = length of the filtered list, items = the slice from
(page-1)*per_page to page*per_page, has_next = page < ceil(total/per_page),
has_prev = page > 1; and concretely with total 25 and per_page 10, page 3
returns 5 items with has_next false and has_prev true, and page 1 returns
has_prev false. -/
theorem C6_pagination :
    (∀ (data : List PostData) (api : Except String (List PostData))
        (page perPage : Nat) (search : Option String),
      filter_posts data search ≠ [] → 1 ≤ page → 1 ≤ perPage →
      get_posts (.hit data) api page perPage search =
        .ok ⟨((filter_posts data search).drop ((page - 1) * perPage)).take perPage,
             (filter_posts data search).length, page, perPage,
             decide (page < ((filter_posts data search).length + perPage - 1) / perPage),
             decide (1 < page)⟩) ∧
    ((get_posts (.hit C6posts) (.error "boom") 3 10 none).map
        (fun r => (r.posts.length, r.total, r.has_next, r.has_prev)) =
      .ok (5, 25, false, true)) ∧
    ((get_posts (.hit C6posts) (.error "boom") 1 10 none).map
        (fun r => (r.has_next, r.has_prev)) = .ok (true, false)) := by
  refine ⟨?_, by rfl, by rfl⟩
  intro data api page perPage search hne hpage hpp
  simp [get_posts, get_cached_posts, build_posts_response, paginate_posts,
        List.length_eq_zero, hne]

/-- Witness for claim C6: the general pagination law evaluated on the
25-post fixture at page 2. -/
theorem C6_pagination_witness :
    get_posts (.hit C6posts) (.error "boom") 2 10 none =
      .ok ⟨((filter_posts C6posts none).drop 10).take 10,
           (filter_posts C6posts none).length, 2, 10,
           decide (2 < ((filter_posts C6posts none).length + 10 - 1) / 10),
           decide (1 < 2)⟩ :=
  C6_pagination.1 C6posts (.error "boom") 2 10 none (by decide) (by decide) (by decide)

/-- Claim C7: when the filtered post list is empty, `get_posts` returns
an empty items list with total 0, has_next false and has_prev false,
regardless of the requested page, both on a cache hit and on a miss
served by the external source. -/
theorem C7_empty_result (data : List PostData) (api : Except String (List PostData))
    (page perPage : Nat) (search : Option String)
    (h : filter_posts data search = []) :
    get_posts (.hit data) api page perPage search =
      .ok ⟨[], 0, page, perPage, false, false⟩ ∧
    get_posts .miss (.ok data) page perPage search =
      .ok ⟨[], 0, page, perPage, false, false⟩ := by
  simp [get_posts, get_cached_posts, build_posts_response, paginate_posts, h]

/-- Witness for claim C7: a search term matching nothing, requested page
99. -/
theorem C7_empty_result_witness :
    get_posts (.hit C7posts) (.error "boom") 99 10 (some "zzz") =
      .ok ⟨[], 0, 99, 10, false, false⟩ ∧
    get_posts .miss (.ok C7posts) 99 10 (some "zzz") =
      .ok ⟨[], 0, 99, 10, false, false⟩ :=
  C7_empty_result C7posts (.error "boom") 99 10 (some "zzz") (by decide)

/-- Claim C8: a cache-backend failure on read behaves exactly like a
cache miss, and with a successful external fetch `get_posts` still
returns the correct response; a cache-read error never fails the
request. -/
theorem C8_cache_down_fail_open (api : Except String (List PostData))
    (page perPage : Nat) (search : Option String) :
    get_posts .down api page perPage search =
      get_posts .miss api page perPage search ∧
    ∀ data, api = .ok data →
      get_posts .down api page perPage search =
        .ok (build_posts_response data page perPage search) := by
  refine ⟨rfl, ?_⟩
  intro data h
  subst h
  rfl

/-- Witness for claim C8: the cache-down path on a concrete two-post
fetch. -/
theorem C8_cache_down_fail_open_witness :
    get_posts .down (.ok C8posts) 1 10 none = get_posts .miss (.ok C8posts) 1 10 none ∧
    get_posts .down (.ok C8posts) 1 10 none =
      .ok (build_posts_response C8posts 1 10 none) :=
  ⟨(C8_cache_down_fail_open (.ok C8posts) 1 10 none).1,
   (C8_cache_down_fail_open (.ok C8posts) 1 10 none).2 C8posts rfl⟩

/-- Claim C1, code evaluation at the failing input: in the embedded code a
login against a non-existent email returns AppException(500, Login failed.
Please try again.) because `_simulate_password_check` raises NameError
(asyncio is never imported in session.py) and the generic handler converts
it, while a wrong password against an existing active email returns
AppException(401, Invalid credentials) — the two branches do NOT return
the same error class and message, and the dummy check aborts instead of
completing. -/
theorem C1_branches_diverge :
    login C1env "ghost@example.com" "Secret123!" =
      (.error ⟨"Login failed. Please try again.", 500⟩, none) ∧
    login C1env "alice@example.com" "WrongPass1!" =
      (.error ⟨"Invalid credentials", 401⟩, none) := by
  constructor <;> rfl

/-- Claim C2, code evaluation at the failing input: a validated, unexpired
token t2 references user id 11, which is absent from the directory; Tier 1
succeeds, but `get_user` propagates AppException(404, User not found)
raised by `user_service.get_by_id` and does NOT clear the session cookie
(the Bool is false) — not the 401-with-cleared-cookie the claim states. -/
theorem C2_missing_user_gives_404 :
    get_token C2env (some "t2") = (.ok ⟨11, "user"⟩, false) ∧
    get_user C2env (fun _ => none) (some "t2") =
      (.error ⟨"User not found", 404⟩, false) := by
  constructor <;> rfl

/-- Claim C3, counterexample: on a request with no session cookie, Tier 1
raises the 401 AppException but does not clear the session cookie (the
cleared flag is false), contradicting the claim that all three Tier 1
failure modes clear the cookie. -/
theorem C3_counterexample :
    (get_token C3env none).1 = .error ⟨"No session token", 401⟩ ∧
    (get_token C3env none).2 = false := by
  constructor <;> rfl

/-- Claim C3 (amended): Tier 1 raises a 401 error in all three failure
modes — cookie absent, decode failure, embedded truthy expiry earlier
than the current time — and clears the session cookie on decode failure
and on expiry, but not when the cookie is absent. -/
theorem C3_tier1_failures (env : TokenEnv) :
    get_token env none = (.error ⟨"No session token", 401⟩, false) ∧
    (∀ s, s ≠ "" → env.decode s = none →
      get_token env (some s) = (.error ⟨"Invalid session token", 401⟩, true)) ∧
    (∀ s d d2 e, s ≠ "" → env.decode s = some d → uuidStep env d = .ok d2 →
      d2.exp = some e → e ≠ 0 → e < env.now →
      get_token env (some s) = (.error ⟨"Session expired", 401⟩, true)) := by
  refine ⟨rfl, ?_, ?_⟩
  · intro s hs hdec
    simp [get_token, hs, hdec]
  · intro s d d2 e hs hdec huuid hexp he0 helt
    simp [get_token, hs, hdec, huuid, hexp, he0, helt]

/-- Witness for claim C3 (amended): the three failure modes on the C3
fixture environment. -/
theorem C3_tier1_failures_witness :
    get_token C3env none = (.error ⟨"No session token", 401⟩, false) ∧
    get_token C3env (some "junk") = (.error ⟨"Invalid session token", 401⟩, true) ∧
    get_token C3env (some "old") = (.error ⟨"Session expired", 401⟩, true) :=
  ⟨(C3_tier1_failures C3env).1,
   (C3_tier1_failures C3env).2.1 "junk" (by decide) rfl,
   (C3_tier1_failures C3env).2.2 "old" ⟨some (.uuid 7), some "user", some 10⟩
     ⟨some (.uuid 7), some "user", some 10⟩ 10 (by decide) rfl rfl rfl
     (by decide) (by decide)⟩

/-- Helper: the final token construction step never produces the
Session-expired error (its only error is Invalid session). -/
theorem tokenFinish_ne_expired (d : Payload) :
    tokenFinish d ≠ (.error ⟨"Session expired", 401⟩, true) := by
  unfold tokenFinish
  rcases d with ⟨uid, role, exp⟩
  rcases uid with _ | v
  · simp
  · rcases v with s | u
    · simp
    · rcases role with _ | r <;> simp

/-- Helper: reduction of Tier 1 on a nonempty cookie that decodes and
passes the user_id conversion: all that remains is the expiry check and
the final token construction. -/
theorem get_token_some (env : TokenEnv) (s : String) (d d2 : Payload)
    (hs : s ≠ "") (hdec : env.decode s = some d)
    (huuid : uuidStep env d = .ok d2) :
    get_token env (some s) =
      match d2.exp with
      | some e =>
        if e ≠ 0 ∧ e < env.now then (.error ⟨"Session expired", 401⟩, true)
        else tokenFinish d2
      | none => tokenFinish d2 := by
  unfold get_token
  dsimp only
  rw [if_neg hs, hdec]
  dsimp only
  rw [huuid]

/-- Claim C9: for a successfully decoded token payload, Tier 1 raises the
expired-session error exactly when the payload carries a truthy exp value
earlier than the current time; when exp is absent or falsy the comparison
is skipped and the token is accepted regardless of its age. -/
theorem C9_expiry_check (env : TokenEnv) (s : String) (d d2 : Payload)
    (hs : s ≠ "") (hdec : env.decode s = some d)
    (huuid : uuidStep env d = .ok d2) :
    (get_token env (some s) = (.error ⟨"Session expired", 401⟩, true) ↔
      ∃ e, d2.exp = some e ∧ e ≠ 0 ∧ e < env.now) ∧
    (∀ u r, (d2.exp = none ∨ d2.exp = some 0) →
      d2.user_id = some (.uuid u) → d2.role = some r →
      get_token env (some s) = (.ok ⟨u, r⟩, false)) := by
  have hred := get_token_some env s d d2 hs hdec huuid
  constructor
  · rcases hexp : d2.exp with _ | e
    · rw [hred, hexp]
      simp [tokenFinish_ne_expired d2]
    · rw [hred, hexp]
      dsimp only
      by_cases hc : e ≠ 0 ∧ e < env.now
      · rw [if_pos hc]
        exact ⟨fun _ => ⟨e, rfl, hc.1, hc.2⟩, fun _ => rfl⟩
      · rw [if_neg hc]
        constructor
        · intro h
          exact absurd h (tokenFinish_ne_expired d2)
        · rintro ⟨e2, he2, h1, h2⟩
          cases he2
          exact absurd ⟨h1, h2⟩ hc
  · intro u r hfalsy hu hr
    rcases hfalsy with h | h <;> rw [hred, h] <;> simp [tokenFinish, hu, hr]

/-- Witness for claim C9: an expired payload is rejected as Session
expired; a payload without exp is accepted although it is arbitrarily
old. -/
theorem C9_expiry_check_witness :
    get_token C9env (some "exp1") = (.error ⟨"Session expired", 401⟩, true) ∧
    get_token C9env (some "noexp") = (.ok ⟨3, "admin"⟩, false) :=
  ⟨(C9_expiry_check C9env "exp1" C9payExpired C9payExpired (by decide) rfl rfl).1.mpr
     ⟨10, rfl, by decide, by decide⟩,
   (C9_expiry_check C9env "noexp" C9payNoExp C9payNoExp (by decide) rfl rfl).2 3 "admin"
     (Or.inl rfl) rfl rfl⟩

/-- Claim C4: a user deactivated after token issuance is rejected by Auth
Gate Tier 2 with a 401 error and a cleared cookie even though Tier 1
succeeds on the still-valid unexpired token; and in general Tier 2
accepts only when the referenced user still exists in the directory and
is active. -/
theorem C4_deactivated_user_rejected :
    (∀ (env : TokenEnv) (dir : Directory) (s : String) (d d2 : Payload)
        (u : Nat) (r : String) (usr : UserDB),
      s ≠ "" → env.decode s = some d → uuidStep env d = .ok d2 →
      (∀ e, d2.exp = some e → e = 0 ∨ env.now ≤ e) →
      d2.user_id = some (.uuid u) → d2.role = some r →
      dir u = some usr → usr.is_active = false →
      get_token env (some s) = (.ok ⟨u, r⟩, false) ∧
      get_user env dir (some s) = (.error ⟨"Account deactivated", 401⟩, true)) ∧
    (∀ (env : TokenEnv) (dir : Directory) (cookie : Option String)
        (usr : UserDB) (c : Bool),
      get_user env dir cookie = (.ok usr, c) →
      usr.is_active = true ∧ ∃ i, dir i = some usr) := by
  constructor
  · intro env dir s d d2 u r usr hs hdec huuid hexp hu hr hdir hinact
    have htok : get_token env (some s) = (.ok ⟨u, r⟩, false) := by
      rw [get_token_some env s d d2 hs hdec huuid]
      rcases he : d2.exp with _ | e
      · simp [tokenFinish, hu, hr]
      · have hc : ¬(e ≠ 0 ∧ e < env.now) := by
          rcases hexp e he with h0 | hle
          · simp [h0]
          · rintro ⟨_, hlt⟩
            omega
        dsimp only
        rw [if_neg hc]
        simp [tokenFinish, hu, hr]
    refine ⟨htok, ?_⟩
    simp [get_user, htok, user_service_get_by_id, hdir, hinact]
  · intro env dir cookie usr c h
    unfold get_user at h
    rcases hgt : get_token env cookie with ⟨res, cleared⟩
    rw [hgt] at h
    rcases res with e | tok
    · exact absurd h (by simp)
    · dsimp only at h
      rcases hbid : user_service_get_by_id dir tok.user_id with e | u2
      · rw [hbid] at h
        exact absurd h (by simp)
      · rw [hbid] at h
        dsimp only at h
        by_cases hact : u2.is_active = true
        · rw [hact] at h
          simp only [Bool.not_true, Bool.false_eq_true, if_false] at h
          have h1 : u2 = usr := by
            have := congrArg Prod.fst h
            simpa using this
          subst h1
          refine ⟨hact, ⟨tok.user_id, ?_⟩⟩
          unfold user_service_get_by_id at hbid
          rcases hdir : dir tok.user_id with _ | v
          · rw [hdir] at hbid
            exact absurd hbid (by simp)
          · rw [hdir] at hbid
            simpa using hbid
        · simp [hact] at h

/-- Witness for claim C4: token t4 of the deactivated user 4 passes Tier 1
and is rejected by Tier 2 with the cookie cleared; the active user 5 shows
the acceptance half on token t5. -/
theorem C4_deactivated_user_rejected_witness :
    (get_token C4env (some "t4") = (.ok ⟨4, "user"⟩, false) ∧
     get_user C4env C4dir (some "t4") =
       (.error ⟨"Account deactivated", 401⟩, true)) ∧
    (C4userActive.is_active = true ∧ ∃ i, C4dir i = some C4userActive) :=
  ⟨C4_deactivated_user_rejected.1 C4env C4dir "t4"
     ⟨some (.uuid 4), some "user", some 2000⟩ ⟨some (.uuid 4), some "user", some 2000⟩
     4 "user" C4userInactive (by decide) rfl rfl
     (by intro e he; cases he; right; decide) rfl rfl (by decide) rfl,
   C4_deactivated_user_rejected.2 C4env C4dir (some "t5") C4userActive false (by rfl)⟩

/-- Claim C5: a login with valid credentials of an existing active user
succeeds and sets a cookie whose value is the encoded token with claims
user_id and role equal to the users id and role, expiry equal to now plus
the configured session duration, and attributes http-only, secure and
strict same-site. -/
theorem C5_login_success (env : LoginEnv) (email password : String) (u : UserDB)
    (he : email ≠ "") (hp : password ≠ "") (hf : format_string email ≠ "")
    (hu : user_service_get_by_email env.repoByEmail (format_string email) = some u)
    (hact : u.is_active = true)
    (hpw : env.validate password u.hash_password = true) :
    login env email password =
      (.ok (env.encode ⟨u.id, roleStr u.role⟩ (env.now + env.sessionTime)),
       some ⟨env.encode ⟨u.id, roleStr u.role⟩ (env.now + env.sessionTime),
             env.now + env.sessionTime, true, true, "strict"⟩) := by
  simp [login, he, hp, hf, hu, hact, hpw]

/-- Witness for claim C5: the fixture user logs in with the correct
password; the cookie carries the encoded token and expiry 1000 + 3600. -/
theorem C5_login_success_witness :
    login C5env "alice@example.com" "Secret123!" =
      (.ok "signed-token", some ⟨"signed-token", 4600, true, true, "strict"⟩) := by
  have h := C5_login_success C5env "alice@example.com" "Secret123!" C5user
    (by decide) (by decide) (by decide) (by decide) rfl (by decide)
  exact h

/-- Claim C10: every account created through public registration is
immediately active with role USER, and a login that finds such a user by
email never returns the Email-not-verified 403 error. -/
theorem C10_registration_active (env : CreateEnv) (obj : UserCreateDTO) (u : UserDB)
    (h : create_user env obj = .ok u) :
    u.is_active = true ∧ u.role = .USER ∧
    ∀ (lenv : LoginEnv) (email password : String),
      user_service_get_by_email lenv.repoByEmail (format_string email) = some u →
      (login lenv email password).1 ≠
        .error ⟨"Email not verified. Please check your inbox.", 403⟩ := by
  have hu : u = user_service_create env obj .USER := by
    simp only [create_user] at h
    split at h
    · exact absurd h (by simp)
    · split at h
      · exact absurd h (by simp)
      · split at h
        · exact absurd h (by simp)
        · split at h
          · exact absurd h (by simp)
          · exact (Except.ok.inj h).symm
  subst hu
  refine ⟨rfl, rfl, ?_⟩
  intro lenv email password hlook
  by_cases h1 : (email = "" || password = "") = true
  · simp [login, h1]
  · by_cases h2 : format_string email = ""
    · simp [login, h1, h2]
    · simp only [login, h1, h2, hlook, user_service_create, if_false, Bool.false_eq_true,
        Bool.not_true, Bool.not_false, if_true]
      split <;> simp

/-- Witness for claim C10: the registered fixture user is active with role
USER and the Email-not-verified branch is not hit at login. -/
theorem C10_registration_active_witness :
    C10user.is_active = true ∧ C10user.role = .USER ∧
    (login C10lenv "alice@example.com" "whatever1").1 ≠
      .error ⟨"Email not verified. Please check your inbox.", 403⟩ := by
  have h := C10_registration_active C10cenv C10obj C10user (by rfl)
  exact ⟨h.1, h.2.1, h.2.2 C10lenv "alice@example.com" "whatever1" (by decide)⟩

end App
